import Mathlib

/-!
# Verification of the WW3-tools collocation scripts

Shallow embedding of the collocation logic of
`validation/modelBuoy_collocation.py`, `ww3tools/modelSat_collocation.py`
and `ww3tools/prepGridMask.py`.  Physical values are embedded as `ℚ`
(with `Option ℚ` where the Python code stores NaN), timestamps as `Int`
(epoch seconds).  NumPy comparison semantics against NaN (always false)
are modelled by the `py*` helpers on `Option ℚ`.
-/

namespace WW3

/-- First index `i` with `s ≤ i < s + k` satisfying `p`, scanning upward from
`s`.  This is the recursive core used to embed NumPy's
`np.where(cond)[0][0]` (the smallest index at which `cond` holds). -/
def firstIdxFrom (p : Nat → Bool) : Nat → Nat → Option Nat
  | 0, _ => none
  | k + 1, s => if p s then some s else firstIdxFrom p k (s + 1)

/-- Embeds `np.where(cond)[0][0]` over a length-`n` axis: the least index
`i < n` with `p i = true`, or `none` when the selection is empty. -/
def firstIdx (p : Nat → Bool) (n : Nat) : Option Nat :=
  firstIdxFrom p n 0

theorem firstIdxFrom_some {p : Nat → Bool} :
    ∀ k s i, firstIdxFrom p k s = some i →
      s ≤ i ∧ i < s + k ∧ p i = true ∧ ∀ j, s ≤ j → j < i → p j = false := by
  intro k
  induction k with
  | zero => intro s i h; simp [firstIdxFrom] at h
  | succ k ih =>
    intro s i h
    simp only [firstIdxFrom] at h
    by_cases hp : p s
    · simp [hp] at h
      subst h
      exact ⟨Nat.le_refl _, by omega, hp, fun j hj hj' => by omega⟩
    · simp [hp] at h
      obtain ⟨h1, h2, h3, h4⟩ := ih (s + 1) i h
      refine ⟨by omega, by omega, h3, ?_⟩
      intro j hj hj'
      rcases Nat.eq_or_lt_of_le hj with rfl | hlt
      · exact Bool.eq_false_iff.mpr hp
      · exact h4 j hlt hj'

theorem firstIdxFrom_none {p : Nat → Bool} :
    ∀ k s, firstIdxFrom p k s = none → ∀ i, s ≤ i → i < s + k → p i = false := by
  intro k
  induction k with
  | zero => intro s _ i h1 h2; omega
  | succ k ih =>
    intro s h i h1 h2
    simp only [firstIdxFrom] at h
    by_cases hp : p s
    · simp [hp] at h
    · simp [hp] at h
      rcases Nat.eq_or_lt_of_le h1 with rfl | hlt
      · exact Bool.eq_false_iff.mpr hp
      · exact ih (s + 1) h i hlt (by omega)

theorem firstIdx_some {p : Nat → Bool} {n i : Nat} (h : firstIdx p n = some i) :
    i < n ∧ p i = true ∧ ∀ j, j < i → p j = false := by
  obtain ⟨h1, h2, h3, h4⟩ := firstIdxFrom_some n 0 i h
  exact ⟨by omega, h3, fun j hj => h4 j (Nat.zero_le _) hj⟩

theorem firstIdx_none {p : Nat → Bool} {n : Nat} (h : firstIdx p n = none) :
    ∀ i, i < n → p i = false := by
  intro i hi
  exact firstIdxFrom_none n 0 h i (Nat.zero_le _) (by omega)

theorem firstIdx_isSome (p : Nat → Bool) {n i : Nat} (hi : i < n)
    (hp : p i = true) : ∃ j, firstIdx p n = some j := by
  cases h : firstIdx p n with
  | none => exact absurd (firstIdx_none h i hi) (by simp [hp])
  | some j => exact ⟨j, rfl⟩

/-- Minimum of a list, `d` for the empty list; embeds `np.min` / `np.nanmin`
on NaN-free data (`xs.min()` over a nonempty array). -/
def listMinD {α : Type} [LinearOrder α] (d : α) : List α → α
  | [] => d
  | h :: t => t.foldl min h

theorem foldl_min_le_init {α : Type} [LinearOrder α] :
    ∀ (t : List α) (a : α), t.foldl min a ≤ a := by
  intro t
  induction t with
  | nil => intro a; exact le_refl a
  | cons x xs ih =>
    intro a
    calc (x :: xs).foldl min a = xs.foldl min (min a x) := rfl
    _ ≤ min a x := ih (min a x)
    _ ≤ a := min_le_left a x

theorem foldl_min_le_mem {α : Type} [LinearOrder α] :
    ∀ (t : List α) (a x : α), x ∈ t → t.foldl min a ≤ x := by
  intro t
  induction t with
  | nil => intro a x hx; simp at hx
  | cons y ys ih =>
    intro a x hx
    rcases List.mem_cons.mp hx with rfl | hmem
    · calc (x :: ys).foldl min a = ys.foldl min (min a x) := rfl
      _ ≤ min a x := foldl_min_le_init ys (min a x)
      _ ≤ x := min_le_right a x
    · exact ih (min a y) x hmem

theorem foldl_min_mem {α : Type} [LinearOrder α] :
    ∀ (t : List α) (a : α), t.foldl min a = a ∨ t.foldl min a ∈ t := by
  intro t
  induction t with
  | nil => intro a; exact Or.inl rfl
  | cons y ys ih =>
    intro a
    rcases ih (min a y) with h | h
    · rcases min_cases a y with ⟨hm, _⟩ | ⟨hm, _⟩
      · exact Or.inl (by simpa [hm] using h)
      · refine Or.inr (List.mem_cons.mpr (Or.inl ?_))
        simpa [hm] using h
    · exact Or.inr (List.mem_cons.mpr (Or.inr h))

theorem listMinD_le {α : Type} [LinearOrder α] (d : α) (l : List α)
    (hl : l ≠ []) (x : α) (hx : x ∈ l) : listMinD d l ≤ x := by
  cases l with
  | nil => exact absurd rfl hl
  | cons h t =>
    rcases List.mem_cons.mp hx with rfl | hmem
    · exact foldl_min_le_init t x
    · exact foldl_min_le_mem t h x hmem

theorem listMinD_mem {α : Type} [LinearOrder α] (d : α) (l : List α)
    (hl : l ≠ []) : listMinD d l ∈ l := by
  cases l with
  | nil => exact absurd rfl hl
  | cons h t =>
    rcases foldl_min_mem t h with heq | hmem
    · exact List.mem_cons.mpr (Or.inl heq)
    · exact List.mem_cons.mpr (Or.inr hmem)

/-! ## NumPy comparison semantics on possibly-NaN floats

`none` plays the role of NaN; every NumPy comparison against NaN is false. -/

/-- `a < b` on floats, false when either side is NaN (`none`). -/
def pyLt : Option ℚ → Option ℚ → Bool
  | some a, some b => decide (a < b)
  | _, _ => false

/-- `a <= b` on floats, false when either side is NaN (`none`). -/
def pyLe : Option ℚ → Option ℚ → Bool
  | some a, some b => decide (a ≤ b)
  | _, _ => false

/-- `a == b` on floats, false when either side is NaN (`none`). -/
def pyEq : Option ℚ → Option ℚ → Bool
  | some a, some b => decide (a = b)
  | _, _ => false

/-! ## Temporal alignment (claim C7)

`modelBuoy_collocation.py` line 182: `indt=np.where(np.abs(atime-mtime[t])<1800.)`
and `modelSat_collocation.py` line 344: `inds=np.where(np.abs(stime-wtime[indtauxw[t]])<1800.)`.
Both select the observation indices whose time differs from the query model
time strictly less than the tolerance.  `alignPairs` packages the full
relation: all index pairs `(i, j)` with `|ta[i] - tb[j]| < tol`. -/

/-- All pairs `(i, j)` with `|ta[i] - tb[j]| < tol`, as produced by running
the script's `np.where(np.abs(... - ...) < tol)` window test for every
query index. -/
def alignPairs (ta tb : List Int) (tol : Int) : List (Nat × Nat) :=
  (List.range ta.length).flatMap (fun i =>
    (List.range tb.length).filterMap (fun j =>
      if |ta.getD i 0 - tb.getD j 0| < tol then some (i, j) else none))

/-! ## Quality-control range predicates (claims C4, C5)

`modelBuoy_collocation.py` lines 200-222 mark out-of-range entries invalid
in place: `ind=np.where((bhs>30.)|(bhs<0.0)); bhs[ind]=np.nan`, and the
analogous bounds for periods and directions.
`modelSat_collocation.py` line 403 instead *selects* the surviving records:
`ind=np.where((fwhs>0.0)&(fwhs<20.0)&(fwwnd>0.0)&(fwwnd<60.0)&(fshs>0.0)&(fshs<20.0)&(fswnd>0.0)&(fswnd<60.0))`
followed by `fwhs=np.array(fwhs[ind[0]])` etc. -/

/-- The buoy script's invalidity test for wave height:
`(bhs>30.)|(bhs<0.0)` (NaN entries test false on both sides). -/
def buoyHsInvalid (h : Option ℚ) : Bool :=
  pyLt (some 30) h || pyLt h (some 0)

/-- A buoy/model wave-height value that the range QC keeps (is not
overwritten with NaN). -/
def buoyHsKept (h : ℚ) : Bool :=
  !(buoyHsInvalid (some h))

/-- The satellite script's per-record wave-height conjuncts
`(fwhs>0.0)&(fwhs<20.0)` of the quality-control selection. -/
def satHsKept (h : ℚ) : Bool :=
  pyLt (some 0) (some h) && pyLt (some h) (some 20)

/-- In-place range QC of the buoy script: every entry failing
`lo ≤ v`/`v ≤ hi` (tested as `(v>hi)|(v<lo)`) is overwritten with NaN;
nothing is appended or dropped.  Models lines 200-222 of
`modelBuoy_collocation.py` for one variable array. -/
def qcNanRange (lo hi : ℚ) (xs : List (Option ℚ)) : List (Option ℚ) :=
  xs.map (fun x =>
    if pyLt (some hi) x || pyLt x (some lo) then none else x)

/-- One candidate matchup record of `modelSat_collocation.py` before the
quality-control step: model and satellite wave height and wind speed
(the four fields tested at line 403; NaN slots are `none`). -/
structure SatRec where
  whs : Option ℚ
  wwnd : Option ℚ
  shs : Option ℚ
  swnd : Option ℚ
  deriving DecidableEq, Repr

instance : Inhabited SatRec := ⟨⟨none, none, none, none⟩⟩

/-- The full conjunction tested by line 403 of `modelSat_collocation.py`. -/
def satKeep (r : SatRec) : Bool :=
  pyLt (some 0) r.whs && pyLt r.whs (some 20) &&
  pyLt (some 0) r.wwnd && pyLt r.wwnd (some 60) &&
  pyLt (some 0) r.shs && pyLt r.shs (some 20) &&
  pyLt (some 0) r.swnd && pyLt r.swnd (some 60)

/-- The indices surviving the satellite quality control:
`ind=np.where(...)` at line 403. -/
def satQCIdxs (rs : List SatRec) : List Nat :=
  (List.range rs.length).filter (fun i => satKeep (rs.getD i default))

/-- The satellite quality-control step itself: the arrays are replaced by
their restriction to the surviving indices (`fwhs=np.array(fwhs[ind[0]])`
and the parallel assignments at lines 406-413). -/
def satQCSelect (rs : List SatRec) : List SatRec :=
  (satQCIdxs rs).map (fun i => rs.getD i default)

/-! ## Nearest grid point lookup (claim C6)

`modelBuoy_collocation.py` lines 243-248:
`alon=np.copy(lon); alon[alon<0]=alon[alon<0]+360.` followed by
`indgplat = np.append(indgplat,np.where( abs(mlat-lat[i])==abs(mlat-lat[i]).min() )[0][0])`
(and the same for `alon` against `mlon`).
`modelSat_collocation.py` lines 367-368 run the same
`np.where( abs(... ) == abs(...).min() )[0][0]` pattern on `slat`/`slon`
directly, with no `+360` step (both `mlon` and `slon` were previously
shifted to the signed convention at lines 156-159 and 273-274). -/

/-- `np.abs` on floats (NaN-free), written out so that it evaluates by
kernel reduction. -/
def absQ (x : ℚ) : ℚ :=
  if x < 0 then -x else x

/-- The buoy script's longitude normalization `alon[alon<0]=alon[alon<0]+360.`. -/
def normLon (lon : ℚ) : ℚ :=
  if lon < 0 then lon + 360 else lon

/-- Per-axis nearest index:
`np.where( abs(grid-q)==abs(grid-q).min() )[0][0]`, i.e. the first index
whose absolute difference to the query equals the minimal absolute
difference over the whole axis. -/
def nearestIdx (grid : List ℚ) (q : ℚ) : Option Nat :=
  firstIdx
    (fun i =>
      decide (absQ (grid.getD i 0 - q) = listMinD 0 (grid.map (fun g => absQ (g - q)))))
    grid.length

/-- Longitude axis lookup of `modelBuoy_collocation.py` (line 248): the
query longitude is normalized by `+360` when negative before the search. -/
def buoyLonIdx (mlon : List ℚ) (lon : ℚ) : Option Nat :=
  nearestIdx mlon (normLon lon)

/-- Longitude axis lookup of `modelSat_collocation.py` (line 368): the raw
satellite longitude is searched directly against `mlon`. -/
def satLonIdx (mlon : List ℚ) (lon : ℚ) : Option Nat :=
  nearestIdx mlon lon

/-! ## Cyclone raster sampling (claim C1)

`modelBuoy_collocation.py` lines 288-291:
`indt=np.where(np.abs(ctime-mtime[t])<5400.)` then
`fcmap[i,t] = np.array(cmap[indt[0][0],indgplat[i],indgplon[i]])`.
`modelSat_collocation.py` lines 336-338 are identical
(`acmap=np.array(cmap[indc[0][0],:,:])`).  The slice used is
`indt[0][0]`: the *lowest* index within the 5400 s window. -/

/-- The raster-slice index picked by the scripts for query time `q`:
the first index of `ctime` within the 5400 s tolerance (`indt[0][0]`),
`none` when no slice qualifies. -/
def cycIndex (ctime : List Int) (q : Int) : Option Nat :=
  firstIdx (fun i => decide (|ctime.getD i 0 - q| < 5400)) ctime.length

/-- The cyclone code the scripts deliver at a fixed grid point:
`codes j` stands for `cmap[j, indgplat, indgplon]`. -/
def cycSampleCode (ctime : List Int) (codes : List ℚ) (q : Int) : Option ℚ :=
  (cycIndex ctime q).map (fun i => codes.getD i 0)

/-- Modelled from the spec (section 4.2/4.5): the sampler the claim
describes, returning the code of the qualifying slice whose time is
closest to the query (first index attaining the minimal distance, among
slices within the 5400 s tolerance). -/
def specClosestCode (ctime : List Int) (codes : List ℚ) (q : Int) : Option ℚ :=
  (firstIdx
      (fun i =>
        decide (|ctime.getD i 0 - q| =
            listMinD 0 (ctime.map (fun c => |c - q|)) ∧
          |ctime.getD i 0 - q| < 5400))
      ctime.length).map (fun i => codes.getD i 0)

/-! ## Grid-equality abort conditions (claim C2)

`modelSat_collocation.py` line 326:
`if np.array_equal(wlat,mlat)==False | np.array_equal(wlon,mlon)==False:`
Under Python precedence, `|` binds tighter than `==`, and `==` chains, so
with `A = np.array_equal(wlat,mlat)` and `B = np.array_equal(wlon,mlon)`
the test is `(A == (False | B)) and ((False | B) == False)`.
`modelBuoy_collocation.py` line 104:
`if np.array_equal(clat,mlat)==True & np.array_equal(clon,mlon)==True:`
parses as `(A == (True & B)) and ((True & B) == True)`; the script aborts
in the `else` branch, i.e. when this chained test is false. -/

/-- Python's chained `x == y == z` on booleans. -/
def pyChainedEq3 (x y z : Bool) : Bool :=
  (x == y) && (y == z)

/-- The model-file grid test of `modelSat_collocation.py` line 326 with
`A`/`B` the two `np.array_equal` results; `sys.exit` fires when this is
true. -/
def satGridAborts (wlatEqMlat wlonEqMlon : Bool) : Bool :=
  pyChainedEq3 wlatEqMlat (false || wlonEqMlon) false

/-- The cyclone-grid test of `modelBuoy_collocation.py` lines 104-107;
`sys.exit` fires when the chained `==True & ==True` test is false. -/
def buoyCycAborts (clatEqMlat clonEqMlon : Bool) : Bool :=
  !(pyChainedEq3 clatEqMlat (true && clonEqMlon) true)

/-- `modelSat_collocation.py` line 326 on concrete axes:
`np.array_equal` is exact array equality. -/
def satGridCheck (wlat mlat wlon mlon : List ℚ) : Bool :=
  satGridAborts (decide (wlat = mlat)) (decide (wlon = mlon))

/-- `modelBuoy_collocation.py` lines 104-107 on concrete axes. -/
def buoyCycCheck (clat mlat clon mlon : List ℚ) : Bool :=
  buoyCycAborts (decide (clat = mlat)) (decide (clon = mlon))

/-! ## Empty-result handling (claim C3)

`modelBuoy_collocation.py` lines 224-237: indices with both sources
available are selected; if none survive the script runs
`sys.exit(' Error: No matchups Model/Buoy available.')` (exit status 1 in
Python when `sys.exit` is passed a string) before any output file is
created.  `modelSat_collocation.py` lines 403-473: if no record passes
quality control the `else` branch merely prints
`' Insufficient amount of matchups model/satellite to save output file.'`
and the script continues to its final timing line, ending with exit
status 0 and no output file. -/

/-- Outcome of a run: whether an output netcdf file was written and the
process exit status. -/
structure RunOutcome where
  savedFile : Bool
  exitCode : Nat
  deriving DecidableEq, Repr

/-- Tail of `modelBuoy_collocation.py` as a function of the completeness
survivor indices (line 225): nonempty ⇒ the script proceeds and saves the
netcdf file, finishing with status 0; empty ⇒ `sys.exit` with a message,
status 1, no file. -/
def buoyFinish (survivors : List Nat) : RunOutcome :=
  if survivors.length > 0 then ⟨true, 0⟩ else ⟨false, 1⟩

/-- Tail of `modelSat_collocation.py` as a function of the quality-control
survivor indices (line 403): nonempty ⇒ file saved, status 0; empty ⇒ a
printed message only, no file, and the script still ends with status 0. -/
def satQCFinish (survivors : List Nat) : RunOutcome :=
  if survivors.length > 0 then ⟨true, 0⟩ else ⟨false, 0⟩

/-! ## Forecast cycle recording (claim C8)

`modelSat_collocation.py` lines 382-385: for every record emitted from the
current cycle file, `ftime[c]=np.double(wtime[indtauxw[t]])` and, under the
forecast policy, `fcycle[c]=np.double(np.nanmin(wtime))`.  Only the time
and cycle fields are modelled: the per-sample satellite fields do not
influence them. -/

/-- Time/cycle fields of one matchup record under the forecast policy. -/
structure FcRecord where
  time : Int
  cycle : Int
  deriving DecidableEq, Repr

/-- Records emitted from one cycle file with time axis `wtime`: each
emitted record corresponds to one surviving (timestep, satellite-sample)
pair and stores the sample's model time `wtime[t]` together with
`np.nanmin(wtime)` as the cycle time. -/
def emitFileRecords (wtime : List Int) (sampleIdxs : List Nat) : List FcRecord :=
  sampleIdxs.map (fun t => ⟨wtime.getD t 0, listMinD 0 wtime⟩)

/-- Lead time recovered downstream from a stored record. -/
def leadTime (r : FcRecord) : Int :=
  r.time - r.cycle

/-! ## Buoy source fallback (claim C9)

`modelBuoy_collocation.py` lines 150-197.  The per-station structure is a
`try` (read NDBC files) / `except` (read the Copernicus file, itself in a
`try`/`except` that gives up with `ahs=[]`) / `else` (build the matchup
row `bhs[b,:]` from the loaded series).  In Python the `else` suite of a
`try` statement runs only when the `try` suite raised no exception, so the
matchup-building block runs only in the NDBC-success case. -/

/-- One loaded observation series (times and significant wave heights);
the masking of individual samples is specialized to all-unmasked data. -/
structure Obs where
  times : List Int
  hs : List ℚ
  deriving DecidableEq, Repr

/-- Arithmetic mean, embedding `np.nanmean` on NaN-free data. -/
def meanQ (xs : List ℚ) : ℚ :=
  xs.sum / xs.length

/-- `indt=np.where(np.abs(atime-mtime[t])<1800.)` (line 182). -/
def windowIdxs (otimes : List Int) (mt : Int) : List Nat :=
  (List.range otimes.length).filter (fun i => decide (|otimes.getD i 0 - mt| < 1800))

/-- The matchup-building block (lines 179-190, `bhs` row only): for each
model time, the mean of the observation heights within the 1800 s window,
NaN when the window is empty. -/
def buildRow (mtime : List Int) (o : Obs) : List (Option ℚ) :=
  mtime.map (fun mt =>
    let idxs := windowIdxs o.times mt
    if idxs.length > 0 then some (meanQ (idxs.map (fun i => o.hs.getD i 0))) else none)

/-- The whole per-station control flow: `ndbc`/`cop` are the outcomes of
the two reads (`none` = the read raised).  The row starts as all-NaN
(line 143) and is filled only by the `try` statement's `else` suite, which
Python runs only when the NDBC `try` suite succeeded; when the `except`
path ran (fallback or double failure) the row is left untouched. -/
def processBuoy (mtime : List Int) (ndbc cop : Option Obs) : List (Option ℚ) :=
  match ndbc with
  | some o => buildRow mtime o
  | none =>
    match cop with
    | some _ => mtime.map (fun _ => none)
    | none => mtime.map (fun _ => none)

/-! ## Grid mask construction (claim C10)

`prepGridMask.py` lines 114-118 and 165-175:
`mindepth=80.`, `mindfc=50.`; `mask` starts at 0 everywhere; land and
model-excluded cells become NaN
(`ind = np.where((ib>0)|(mapsta>100)|(mapsta==0))` when MAPSTA is present,
`np.where(ib>0)` otherwise); then
`ind = np.where( (ib<=(-1*mindepth)) & (idfc>=mindfc) & (np.isnan(mask)==False) ); mask[ind]=1`;
finally the wrap-around copy `mask[:,0]=mask[:,-1]`. -/

/-- `mindepth=80.` of `prepGridMask.py`. -/
def mindepth : ℚ := 80

/-- `mindfc=50.` of `prepGridMask.py`. -/
def mindfc : ℚ := 50

/-- Entry `(i, j)` of a 2-D array stored as rows, NaN (`none`) outside. -/
def cellAt (m : List (List (Option ℚ))) (i j : Nat) : Option ℚ :=
  (m.getD i []).getD j none

/-- The first exclusion step's test at one cell:
`(ib>0)|(mapsta>100)|(mapsta==0)` when MAPSTA is present, `ib>0` otherwise
(NaN inputs compare false). -/
def maskExcluded (useMapsta : Bool) (mapsta ib : Option ℚ) : Bool :=
  if useMapsta then pyLt (some 0) ib || pyLt (some 100) mapsta || pyEq mapsta (some 0)
  else pyLt (some 0) ib

/-- The mask value of one cell before the wrap-around copy: `none` when
excluded (step 1), else 1 when `ib<=-mindepth & idfc>=mindfc` (step 2 can
only fire where step 1 left the cell non-NaN), else the initial 0. -/
def maskCell (useMapsta : Bool) (mapsta ib idfc : Option ℚ) : Option ℚ :=
  if maskExcluded useMapsta mapsta ib then none
  else if pyLe ib (some (-mindepth)) && pyLe (some mindfc) idfc then some 1
  else some 0

/-- The full mask of `prepGridMask.py` on an `nrows × ncols` grid,
including the final wrap-around copy `mask[:,0]=mask[:,-1]`: column 0
takes the value computed for the last column. -/
def buildMask (useMapsta : Bool) (mapsta ib idfc : List (List (Option ℚ)))
    (nrows ncols : Nat) : List (List (Option ℚ)) :=
  (List.range nrows).map (fun i =>
    (List.range ncols).map (fun j =>
      let j' := if j = 0 then ncols - 1 else j
      maskCell useMapsta (cellAt mapsta i j') (cellAt ib i j') (cellAt idfc i j')))

/-! ## Helper lemmas -/

theorem getD_map_range {α : Type} (f : Nat → α) (d : α) {n i : Nat} (h : i < n) :
    ((List.range n).map f).getD i d = f i := by
  rw [List.getD_eq_getElem _ _ (by simpa using h), List.getElem_map]
  simp [List.getElem_range]

theorem getD_map_abs {α β : Type} [Inhabited β] (f : α → β) (l : List α)
    (d : α) (d' : β) {i : Nat} (h : i < l.length) :
    (l.map f).getD i d' = f (l.getD i d) := by
  rw [List.getD_eq_getElem _ _ (by simpa using h), List.getElem_map,
    List.getD_eq_getElem _ _ h]

theorem select_eq_filter {α : Type} (p : α → Bool) (d : α) :
    ∀ l : List α,
      ((List.range l.length).filter (fun i => p (l.getD i d))).map
          (fun i => l.getD i d) = l.filter p := by
  intro l
  induction l with
  | nil => simp
  | cons x xs ih =>
    rw [List.length_cons, List.range_succ_eq_map]
    have heq :
        ((fun i => p ((x :: xs)[i]?.getD d)) ∘ Nat.succ) =
          (fun i => p (xs[i]?.getD d)) := by
      funext i
      simp
    have heq2 :
        ((fun i => (x :: xs)[i]?.getD d) ∘ Nat.succ) =
          (fun i => xs[i]?.getD d) := by
      funext i
      simp
    simp only [List.getD_eq_getElem?_getD] at ih ⊢
    by_cases hp : p x
    · simp [List.filter_cons, hp, List.filter_map, List.map_map, heq, heq2, ih]
    · simp [List.filter_cons, hp, List.filter_map, List.map_map, heq, heq2, ih]

theorem maskCell_values (u : Bool) (m b d : Option ℚ) :
    maskCell u m b d = none ∨ maskCell u m b d = some 0 ∨
      maskCell u m b d = some 1 := by
  unfold maskCell
  split
  · exact Or.inl rfl
  · split
    · exact Or.inr (Or.inr rfl)
    · exact Or.inr (Or.inl rfl)

theorem maskCell_one {u : Bool} {m b d : Option ℚ}
    (h : maskCell u m b d = some 1) :
    pyLe b (some (-mindepth)) = true ∧ pyLe (some mindfc) d = true := by
  unfold maskCell at h
  split at h
  · exact absurd h (by simp)
  · split at h
    · next hcond => exact ⟨(Bool.and_eq_true _ _ ▸ hcond).1, (Bool.and_eq_true _ _ ▸ hcond).2⟩
    · exact absurd h (by simp)

theorem maskCell_excluded {u : Bool} {m b d : Option ℚ}
    (h : maskExcluded u m b = true) : maskCell u m b d = none := by
  unfold maskCell
  rw [if_pos h]

theorem buildMask_cell (u : Bool) (mapsta ib idfc : List (List (Option ℚ)))
    (nrows ncols : Nat) {i j : Nat} (hi : i < nrows) (hj : j < ncols) :
    cellAt (buildMask u mapsta ib idfc nrows ncols) i j =
      maskCell u (cellAt mapsta i (if j = 0 then ncols - 1 else j))
        (cellAt ib i (if j = 0 then ncols - 1 else j))
        (cellAt idfc i (if j = 0 then ncols - 1 else j)) := by
  unfold buildMask cellAt
  rw [getD_map_range _ _ hi, getD_map_range _ _ hj]

/-! ## Claim theorems -/

/-- Claim C7: for every tolerance and pair of times, the temporal
alignment includes the index pair if and only if the absolute time
difference is strictly less than the tolerance; a pair at exactly the
tolerance is excluded. -/
theorem c7_align_strict (ta tb : List Int) (tol : Int) (i j : Nat) :
    (i, j) ∈ alignPairs ta tb tol ↔
      i < ta.length ∧ j < tb.length ∧ |ta.getD i 0 - tb.getD j 0| < tol := by
  constructor
  · intro h
    simp only [alignPairs, List.mem_flatMap, List.mem_range,
      List.mem_filterMap] at h
    obtain ⟨i', hi', j', hj', hc⟩ := h
    by_cases hcond : |ta.getD i' 0 - tb.getD j' 0| < tol
    · rw [if_pos hcond] at hc
      obtain ⟨rfl, rfl⟩ := Prod.mk.injEq .. ▸ Option.some.inj hc
      exact ⟨hi', hj', hcond⟩
    · rw [if_neg hcond] at hc
      exact absurd hc (by simp)
  · rintro ⟨hi, hj, hcond⟩
    simp only [alignPairs, List.mem_flatMap, List.mem_range,
      List.mem_filterMap]
    exact ⟨i, hi, j, hj, by rw [if_pos hcond]⟩

/-- Claim C5, counterexample: the buoy-context range QC keeps the wave
height 30.0 (the claimed upper bound is not exclusive there), and the
satellite-context QC rejects the wave height 0.0 (the claimed lower bound
is not inclusive there). -/
theorem c5_counterexample :
    buoyHsKept 30 = true ∧ ¬((0:ℚ) ≤ 30 ∧ (30:ℚ) < 30) ∧
      satHsKept 0 = false ∧ ((0:ℚ) ≤ 0 ∧ (0:ℚ) < 20) := by
  refine ⟨by decide, by norm_num, by decide, by norm_num⟩

/-- Claim C5, amended: the buoy/model-context QC accepts exactly
`0 ≤ h ≤ 30` (both bounds inclusive), and the satellite-context QC accepts
exactly `0 < h < 20` (both bounds exclusive). -/
theorem c5_amended (h : ℚ) :
    (buoyHsKept h = true ↔ 0 ≤ h ∧ h ≤ 30) ∧
      (satHsKept h = true ↔ 0 < h ∧ h < 20) := by
  constructor
  · simp only [buoyHsKept, buoyHsInvalid, pyLt, Bool.not_eq_true',
      Bool.or_eq_false_iff, decide_eq_false_iff_not, not_lt]
    exact ⟨fun hx => ⟨hx.2, hx.1⟩, fun hx => ⟨hx.2, hx.1⟩⟩
  · simp [satHsKept, pyLt]

/-- Claim C2: evaluation of the grid-equality abort conditions.  In
`modelSat_collocation.py` a latitude-axis mismatch alone does not trigger
the abort (the chained `==False | ==False` test is false there), while a
mismatch on both axes does; the cyclone-grid check of
`modelBuoy_collocation.py` does abort on a single-axis mismatch. -/
theorem c2_code_bug_eval :
    satGridCheck [1] [2] [5] [5] = false ∧
      satGridCheck [1] [2] [5] [6] = true ∧
      satGridCheck [1] [1] [5] [5] = false ∧
      buoyCycCheck [1] [2] [5] [5] = true := by
  decide

/-- Claim C3, counterexample: with zero quality-control survivors the
satellite script's run saves no file but finishes with exit status 0, not
the claimed non-zero status. -/
theorem c3_counterexample :
    (satQCFinish []).savedFile = false ∧ ¬(satQCFinish []).exitCode ≠ 0 := by
  decide

/-- Claim C3, amended: when zero matchups survive, no output file is
persisted in either script; the buoy script terminates through `sys.exit`
with a non-zero status, while the satellite script's quality-control
branch only prints a message and the process ends with status 0. -/
theorem c3_amended (s : List Nat) (h : s = []) :
    (buoyFinish s).savedFile = false ∧ (buoyFinish s).exitCode ≠ 0 ∧
      (satQCFinish s).savedFile = false ∧ (satQCFinish s).exitCode = 0 := by
  subst h
  decide

theorem c3_amended_witness :
    (buoyFinish []).savedFile = false ∧ (buoyFinish []).exitCode ≠ 0 ∧
      (satQCFinish []).savedFile = false ∧ (satQCFinish []).exitCode = 0 :=
  c3_amended [] rfl

/-- Claim C9: evaluation of the buoy-station fallback at a concrete
input.  The same observation series yields a filled matchup row when it
arrives from the primary (NDBC) source but an all-missing row when it
arrives from the fallback (Copernicus) source, because the row-building
block is the `try` statement's `else` suite, which is skipped whenever the
`except` path ran. -/
theorem c9_code_bug_eval :
    processBuoy [0] none (some ⟨[0], [2]⟩) = [none] ∧
      processBuoy [0] (some ⟨[0], [2]⟩) none = [some 2] := by
  constructor
  · rfl
  · show [some (meanQ [2])] = [some 2]
    norm_num [meanQ]

/-- Claim C8: under the forecast policy every record emitted from a cycle
file carries the file's minimum timestamp as its cycle time (the stored
cycle value is a lower bound of, and attained in, the file's time axis),
so the lead time is recoverable as sample time minus cycle time. -/
theorem c8_cycle_time (wtime : List Int) (sampleIdxs : List Nat)
    (r : FcRecord) (hr : r ∈ emitFileRecords wtime sampleIdxs) :
    r.cycle = listMinD 0 wtime ∧
      leadTime r = r.time - listMinD 0 wtime ∧
      (wtime ≠ [] → r.cycle ∈ wtime ∧ ∀ x ∈ wtime, r.cycle ≤ x) := by
  simp only [emitFileRecords, List.mem_map] at hr
  obtain ⟨t, ht, rfl⟩ := hr
  refine ⟨rfl, rfl, fun hne => ⟨listMinD_mem 0 wtime hne, ?_⟩⟩
  intro x hx
  exact listMinD_le 0 wtime hne x hx

theorem c8_cycle_time_witness :
    ((⟨100, 40⟩ : FcRecord) ∈ emitFileRecords [100, 40, 70] [0]) ∧
      ((⟨100, 40⟩ : FcRecord).cycle = listMinD 0 [100, 40, 70] ∧
        leadTime ⟨100, 40⟩ = (⟨100, 40⟩ : FcRecord).time - listMinD 0 [100, 40, 70] ∧
        (([100, 40, 70] : List Int) ≠ [] →
          (⟨100, 40⟩ : FcRecord).cycle ∈ ([100, 40, 70] : List Int) ∧
            ∀ x ∈ ([100, 40, 70] : List Int), (⟨100, 40⟩ : FcRecord).cycle ≤ x)) :=
  ⟨by decide, c8_cycle_time [100, 40, 70] [0] ⟨100, 40⟩ (by decide)⟩

/-- Claim C1, counterexample: with raster times 0 and 5000 and query time
4000, both slices lie within the 5400 s tolerance and slice 1 is strictly
closer, yet the sampler returns the code of slice 0 (the first qualifying
slice), not the code of the closest slice. -/
theorem c1_counterexample :
    cycSampleCode [0, 5000] [7, 9] 4000 = some 7 ∧
      specClosestCode [0, 5000] [7, 9] 4000 = some 9 ∧
      |(0:Int) - 4000| < 5400 ∧ |(5000:Int) - 4000| < 5400 ∧
      |(5000:Int) - 4000| < |(0:Int) - 4000| ∧
      (some (7:ℚ) ≠ some (9:ℚ)) := by
  decide

/-- Claim C1, amended: the cyclone sampler returns the code of the first
(lowest-index) raster slice within the 5400 s tolerance, not necessarily
the closest-in-time one; every lower-indexed slice lies outside the
tolerance. -/
theorem c1_amended (ctime : List Int) (codes : List ℚ) (q : Int) (i : Nat)
    (h : cycIndex ctime q = some i) :
    i < ctime.length ∧ |ctime.getD i 0 - q| < 5400 ∧
      (∀ j, j < i → ¬(|ctime.getD j 0 - q| < 5400)) ∧
      cycSampleCode ctime codes q = some (codes.getD i 0) := by
  obtain ⟨hlen, hp, hmin⟩ := firstIdx_some h
  refine ⟨hlen, of_decide_eq_true hp, ?_, ?_⟩
  · intro j hj
    exact of_decide_eq_false (hmin j hj)
  · simp [cycSampleCode, h]

theorem c1_amended_witness :
    cycIndex [0, 5000] 4000 = some 0 ∧
      (0 < ([0, 5000] : List Int).length ∧
        |([0, 5000] : List Int).getD 0 0 - 4000| < 5400 ∧
        (∀ j, j < 0 → ¬(|([0, 5000] : List Int).getD j 0 - 4000| < 5400)) ∧
        cycSampleCode [0, 5000] [7, 9] 4000 = some (([7, 9] : List ℚ).getD 0 0)) :=
  ⟨by decide, c1_amended [0, 5000] [7, 9] 4000 0 (by decide)⟩

/-- Claim C6, counterexample: on the signed-convention grid of the
satellite script, the query longitude −170 resolves to index 0 as the code
computes it, while the claimed procedure (add 360 to a negative longitude,
then take the per-axis argmin) resolves to index 2; the satellite lookup
performs no `+360` normalization. -/
theorem c6_counterexample :
    satLonIdx [-170, 0, 170] (-170) = some 0 ∧
      buoyLonIdx [-170, 0, 170] (-170) = some 2 ∧
      (some 0 : Option Nat) ≠ some 2 := by
  refine ⟨?_, ?_, by decide⟩
  · norm_num [satLonIdx, nearestIdx, firstIdx, firstIdxFrom, listMinD, absQ,
      min_def, List.foldl]
  · norm_num [buoyLonIdx, normLon, nearestIdx, firstIdx, firstIdxFrom,
      listMinD, absQ, min_def, List.foldl]

/-- Claim C6, amended: the per-axis lookup always returns the lowest index
achieving the minimum absolute difference to the (possibly normalized)
query; the `+360` normalization of a negative query longitude is applied
in the buoy collocation only, while the satellite collocation searches the
raw query longitude against the (signed-convention) grid. -/
theorem c6_amended (grid : List ℚ) (q : ℚ) (hg : grid ≠ []) :
    ∃ i, nearestIdx grid q = some i ∧ i < grid.length ∧
      (∀ j, j < grid.length → absQ (grid.getD i 0 - q) ≤ absQ (grid.getD j 0 - q)) ∧
      (∀ j, j < i → absQ (grid.getD j 0 - q) ≠ absQ (grid.getD i 0 - q)) ∧
      buoyLonIdx grid q = nearestIdx grid (normLon q) ∧
      satLonIdx grid q = nearestIdx grid q := by
  have hdne : grid.map (fun g => absQ (g - q)) ≠ [] := by
    cases grid with
    | nil => exact absurd rfl hg
    | cons a t => simp
  have hmem := listMinD_mem 0 (grid.map (fun g => absQ (g - q))) hdne
  obtain ⟨k, hk, hdk⟩ := List.mem_iff_getElem.mp hmem
  have hklen : k < grid.length := by simpa using hk
  have hpk :
      decide (absQ (grid.getD k 0 - q) =
        listMinD 0 (grid.map (fun g => absQ (g - q)))) = true := by
    rw [decide_eq_true_eq, List.getD_eq_getElem _ _ hklen, ← hdk,
      List.getElem_map]
  obtain ⟨i, hi⟩ :=
    firstIdx_isSome
      (fun m =>
        decide (absQ (grid.getD m 0 - q) =
          listMinD 0 (grid.map (fun g => absQ (g - q)))))
      hklen hpk
  have hni : nearestIdx grid q = some i := hi
  obtain ⟨hilen, hpi, hmin⟩ := firstIdx_some hi
  have hieq : absQ (grid.getD i 0 - q) = listMinD 0 (grid.map (fun g => absQ (g - q))) :=
    of_decide_eq_true hpi
  refine ⟨i, hni, hilen, ?_, ?_, rfl, rfl⟩
  · intro j hj
    have hjm : absQ (grid.getD j 0 - q) ∈ grid.map (fun g => absQ (g - q)) := by
      rw [List.getD_eq_getElem _ _ hj]
      exact List.mem_map.mpr ⟨grid[j], List.getElem_mem hj, rfl⟩
    rw [hieq]
    exact listMinD_le 0 _ hdne _ hjm
  · intro j hj hjeq
    have hfalse := of_decide_eq_false (hmin j hj)
    exact hfalse (hjeq.trans hieq)

theorem c6_amended_witness :
    ([(-170:ℚ), 0, 170] ≠ []) ∧
      (∃ i, nearestIdx [(-170:ℚ), 0, 170] 10 = some i ∧
        i < ([(-170:ℚ), 0, 170] : List ℚ).length ∧
        (∀ j, j < ([(-170:ℚ), 0, 170] : List ℚ).length →
          absQ (([(-170:ℚ), 0, 170] : List ℚ).getD i 0 - 10) ≤
            absQ (([(-170:ℚ), 0, 170] : List ℚ).getD j 0 - 10)) ∧
        (∀ j, j < i →
          absQ (([(-170:ℚ), 0, 170] : List ℚ).getD j 0 - 10) ≠
            absQ (([(-170:ℚ), 0, 170] : List ℚ).getD i 0 - 10)) ∧
        buoyLonIdx [(-170:ℚ), 0, 170] 10 = nearestIdx [(-170:ℚ), 0, 170] (normLon 10) ∧
        satLonIdx [(-170:ℚ), 0, 170] 10 = nearestIdx [(-170:ℚ), 0, 170] 10) :=
  ⟨by simp, c6_amended [(-170:ℚ), 0, 170] 10 (by simp)⟩

/-- Claim C4, counterexample: the satellite quality-control step applied
to two candidate records, one in range and one with satellite wave height
25 m (out of range), returns a one-element array: the failing record is
dropped and the array length changes, rather than the value being replaced
by "missing" in place. -/
theorem c4_counterexample :
    satQCSelect [⟨some 1, some 10, some 1, some 10⟩,
        ⟨some 1, some 10, some 25, some 10⟩] =
      [⟨some 1, some 10, some 1, some 10⟩] ∧
      (satQCSelect [⟨some 1, some 10, some 1, some 10⟩,
          ⟨some 1, some 10, some 25, some 10⟩]).length ≠
        ([⟨some 1, some 10, some 1, some 10⟩,
          ⟨some 1, some 10, some 25, some 10⟩] : List SatRec).length ∧
      (⟨some 1, some 10, some 25, some 10⟩ : SatRec) ∉
        satQCSelect [⟨some 1, some 10, some 1, some 10⟩,
          ⟨some 1, some 10, some 25, some 10⟩] := by
  decide

/-- Claim C4, amended: the buoy-context range QC replaces out-of-range
values with "missing" in place (length preserved, in-range entries
untouched at their positions), while the satellite-context quality control
selects the subsequence of records passing all range predicates, dropping
the failing records; with the data, the completeness/quality selection
performs the row elimination there. -/
theorem c4_amended (lo hi : ℚ) (xs : List (Option ℚ)) (rs : List SatRec) :
    (qcNanRange lo hi xs).length = xs.length ∧
      (∀ i v, xs.getD i none = some v → ¬(hi < v ∨ v < lo) →
        (qcNanRange lo hi xs).getD i none = some v) ∧
      satQCSelect rs = rs.filter satKeep := by
  refine ⟨by simp [qcNanRange], ?_, ?_⟩
  · intro i v hv hrange
    by_cases hilen : i < xs.length
    · rw [qcNanRange,
        getD_map_abs
          (fun x => if pyLt (some hi) x || pyLt x (some lo) then none else x)
          xs none none hilen, hv]
      rcases not_or.mp hrange with ⟨h1, h2⟩
      simp [pyLt, h1, h2]
    · rw [List.getD_eq_default _ _ (le_of_not_lt hilen)] at hv
      exact absurd hv (by simp)
  · unfold satQCSelect satQCIdxs
    exact select_eq_filter satKeep default rs

theorem c4_amended_witness :
    (qcNanRange 0 30 [some 31, some 15]).length = 2 ∧
      (qcNanRange 0 30 [some 31, some 15]).getD 1 none = some 15 ∧
      satQCSelect [(⟨some 1, some 10, some 1, some 10⟩ : SatRec)] =
        ([⟨some 1, some 10, some 1, some 10⟩] : List SatRec).filter satKeep := by
  have h := c4_amended 0 30 [some 31, some 15]
    [(⟨some 1, some 10, some 1, some 10⟩ : SatRec)]
  exact ⟨h.1, h.2.1 1 15 (by decide) (by norm_num), h.2.2⟩

/-- Claim C10, counterexample: on a 1 × 2 grid with land in the first
column (`ib = 5 > 0`) and valid deep ocean in the last column
(`ib = −100`, `idfc = 60`), the final wrap-around copy
`mask[:,0]=mask[:,-1]` gives the first-column cell the value 1, although
its own bathymetry is positive (the claim requires NaN there) and fails
the depth threshold at that cell. -/
theorem c10_counterexample :
    buildMask false [] [[some 5, some (-100)]] [[some 10, some 60]] 1 2 =
      [[some 1, some 1]] ∧
      cellAt (buildMask false [] [[some 5, some (-100)]] [[some 10, some 60]] 1 2) 0 0 =
        some 1 ∧
      pyLt (some 0) (cellAt [[some 5, some (-100)]] 0 0) = true ∧
      ¬(pyLe (cellAt [[some 5, some (-100)]] 0 0) (some (-mindepth)) = true) := by
  decide

/-- Claim C10, amended: every mask value is NaN, 0 or 1; outside the first
longitude column, a cell valued 1 satisfies both thresholds at that cell
(bathymetry ≤ −80 and distance-to-coast ≥ 50) and an excluded cell
(positive bathymetry or MAPSTA exclusion) is NaN; the first longitude
column is a verbatim copy of the last column, so its values reflect the
last column's inputs instead. -/
theorem c10_amended (u : Bool) (mapsta ib idfc : List (List (Option ℚ)))
    (nrows ncols : Nat) (i j : Nat) (hi : i < nrows) (hj : j < ncols) :
    (cellAt (buildMask u mapsta ib idfc nrows ncols) i j = none ∨
      cellAt (buildMask u mapsta ib idfc nrows ncols) i j = some 0 ∨
      cellAt (buildMask u mapsta ib idfc nrows ncols) i j = some 1) ∧
    (j ≠ 0 →
      (cellAt (buildMask u mapsta ib idfc nrows ncols) i j = some 1 →
        pyLe (cellAt ib i j) (some (-mindepth)) = true ∧
        pyLe (some mindfc) (cellAt idfc i j) = true) ∧
      (maskExcluded u (cellAt mapsta i j) (cellAt ib i j) = true →
        cellAt (buildMask u mapsta ib idfc nrows ncols) i j = none)) ∧
    (j = 0 →
      cellAt (buildMask u mapsta ib idfc nrows ncols) i 0 =
        cellAt (buildMask u mapsta ib idfc nrows ncols) i (ncols - 1)) := by
  have hcell := buildMask_cell u mapsta ib idfc nrows ncols hi hj
  refine ⟨?_, ?_, ?_⟩
  · rw [hcell]
    exact maskCell_values _ _ _ _
  · intro hj0
    rw [hcell]
    simp only [if_neg hj0]
    exact ⟨maskCell_one, maskCell_excluded⟩
  · intro hj0
    subst hj0
    have h0 : (0:Nat) < ncols := hj
    have hlast : ncols - 1 < ncols := by omega
    rw [buildMask_cell u mapsta ib idfc nrows ncols hi h0,
      buildMask_cell u mapsta ib idfc nrows ncols hi hlast]
    by_cases hc : ncols - 1 = 0
    · simp [hc]
    · simp [hc]

theorem c10_amended_witness :
    ((0:Nat) < 1 ∧ (1:Nat) < 2) ∧
      ((cellAt (buildMask false [] [[some 5, some (-100)]] [[some 10, some 60]] 1 2) 0 1 = none ∨
        cellAt (buildMask false [] [[some 5, some (-100)]] [[some 10, some 60]] 1 2) 0 1 = some 0 ∨
        cellAt (buildMask false [] [[some 5, some (-100)]] [[some 10, some 60]] 1 2) 0 1 = some 1) ∧
      ((1:Nat) ≠ 0 →
        (cellAt (buildMask false [] [[some 5, some (-100)]] [[some 10, some 60]] 1 2) 0 1 = some 1 →
          pyLe (cellAt [[some 5, some (-100)]] 0 1) (some (-mindepth)) = true ∧
          pyLe (some mindfc) (cellAt [[some 10, some 60]] 0 1) = true) ∧
        (maskExcluded false (cellAt [] 0 1) (cellAt [[some 5, some (-100)]] 0 1) = true →
          cellAt (buildMask false [] [[some 5, some (-100)]] [[some 10, some 60]] 1 2) 0 1 = none)) ∧
      ((1:Nat) = 0 →
        cellAt (buildMask false [] [[some 5, some (-100)]] [[some 10, some 60]] 1 2) 0 0 =
          cellAt (buildMask false [] [[some 5, some (-100)]] [[some 10, some 60]] 1 2) 0 (2 - 1))) :=
  ⟨⟨by decide, by decide⟩,
    c10_amended false [] [[some 5, some (-100)]] [[some 10, some 60]] 1 2 0 1
      (by decide) (by decide)⟩

end WW3
